import Mathlib

/-!
Shallow embedding of the drone-weather agent of the `agent-stack` repository
(packages `droneweather`, `models`, `config`), covering:

* `AnalyzeWeatherConditions` (agents/drone-weather/weather.go),
* the TFR pipeline: `parseTFRDatesFromTitle`, `parseFlexibleDate`,
  `calculatePolygonCenter`, `parseGeoJSONTFRs`, `CheckTFRs`,
  `buildTFRCheck`, `isWithinSearchArea` (GeoJSON-based tfr.go),
* the `RunOnce` decision flow of agent.go.

Modelling conventions:

* Go `float64` values are modelled as `ℚ`.  The two transcendental helpers
  (`calculateDistance`, the haversine great-circle distance in miles, and
  `webMercatorToWGS84`, the inverse Web-Mercator projection, both built on
  float64 trigonometry) are abstracted as parameters of a `GeoMath` record;
  every use site embeds the source's control flow around them faithfully.
* Go `time.Time` is modelled as `GoTime := ℤ`, counting seconds since
  0001-01-01T00:00:00 UTC, so that the Go zero time is the integer `0`
  (`t.IsZero()` becomes `t = 0`), `t.After(u)` becomes `u < t` and
  `t.Before(u)` becomes `t < u`.
* The reason strings produced by `fmt.Sprintf` in `AnalyzeWeatherConditions`
  are modelled as a tagged type `WeatherReason` carrying the Sprintf
  arguments; the count and order of appended reasons is preserved exactly.
-/

/-- Go `time.Time`, as seconds since 0001-01-01T00:00:00 UTC (the Go zero
time), so the Go zero `time.Time` is `0`. -/
abbrev GoTime := Int

/-- Go `t.IsZero()`. -/
def timeIsZero (t : GoTime) : Bool := t == 0

/-- Go `a.After(b)`: `a` is strictly later than `b`. -/
def timeAfter (a b : GoTime) : Bool := decide (b < a)

/-- Go `a.Before(b)`: `a` is strictly earlier than `b`. -/
def timeBefore (a b : GoTime) : Bool := decide (a < b)

/-- `config.DroneWeatherConfig` (shared/config/config.go), the fields used by
the weather and TFR clients. -/
structure DroneWeatherConfig where
  maxWindSpeedKmh : Int
  minVisibilityKm : Int
  maxPrecipitationMm : ℚ
  minTempC : ℚ
  maxTempC : ℚ
  searchRadiusMiles : Int
deriving DecidableEq

/-- `models.HourlyForecast` (internal/models/weather.go). -/
structure HourlyForecast where
  times : List GoTime
  windSpeeds : List ℚ
  windGusts : List ℚ
deriving DecidableEq

/-- `models.WeatherData` (internal/models/weather.go).  Defaults are the Go
zero values of the struct fields. -/
structure WeatherData where
  latitude : ℚ := 0
  longitude : ℚ := 0
  temperature : ℚ := 0
  windSpeed : ℚ := 0
  windDir : Int := 0
  visibility : ℚ := 0
  precipitation : ℚ := 0
  time : GoTime := 0
  timezone : String := ""
  hourlyData : Option HourlyForecast := none
deriving DecidableEq

/-- One reason string appended by `AnalyzeWeatherConditions`
(agents/drone-weather/weather.go).  Each constructor stands for one of the
five `fmt.Sprintf` reason strings and carries exactly the Sprintf
arguments. -/
inductive WeatherReason where
  | windTooHigh (speedKmh : ℚ) (maxKmh : Int)
  | visibilityTooLow (visKm : ℚ) (minKm : Int)
  | precipitationPresent (mm : ℚ) (maxMm : ℚ)
  | temperatureTooLow (tempC : ℚ) (minC : ℚ)
  | temperatureTooHigh (tempC : ℚ) (maxC : ℚ)
deriving DecidableEq

/-- `models.WeatherAnalysis` (internal/models/weather.go).  The two average
fields default to `0`, the Go zero value of `float64`. -/
structure WeatherAnalysis where
  data : WeatherData
  isFlyable : Bool
  reasons : List WeatherReason
  avgWindSpeedKmh : ℚ := 0
  avgWindGustsKmh : ℚ := 0
  windForecast : String
deriving DecidableEq

/-- The "Calculate average wind values from hourly data" block of
`AnalyzeWeatherConditions` (weather.go): the running-total loops are Go
`for` accumulations, modelled as `List.foldl`; a field that is never
assigned keeps the Go zero value `0`.  Returns the pair
`(AvgWindSpeedKmh, AvgWindGustsKmh)`. -/
def hourlyAverages : Option HourlyForecast → ℚ × ℚ
  | none => (0, 0)
  | some hourly =>
    if hourly.windSpeeds.length > 0 then
      let totalWindSpeed := hourly.windSpeeds.foldl (· + ·) 0
      let avgSpeed := totalWindSpeed / (hourly.windSpeeds.length : ℚ)
      if hourly.windGusts.length > 0 then
        let totalGusts := hourly.windGusts.foldl (· + ·) 0
        (avgSpeed, totalGusts / (hourly.windGusts.length : ℚ))
      else
        (avgSpeed, 0)
    else
      (0, 0)

/-- `WeatherClient.AnalyzeWeatherConditions` (agents/drone-weather/weather.go).
The sequential mutation of the `analysis` struct is modelled by a chain of
record updates in source order: initial struct literal, average-wind block,
the five threshold checks (wind speed, visibility, precipitation, minimum
temperature, maximum temperature), then the wind-forecast label. -/
def analyzeWeatherConditions (cfg : DroneWeatherConfig) (data : WeatherData) :
    WeatherAnalysis :=
  let avgs := hourlyAverages data.hourlyData
  let analysis : WeatherAnalysis :=
    { data := data
      isFlyable := true
      reasons := []
      avgWindSpeedKmh := avgs.1
      avgWindGustsKmh := avgs.2
      windForecast := "Light and stable through afternoon" }
  let analysis :=
    if data.windSpeed > (cfg.maxWindSpeedKmh : ℚ) then
      { analysis with isFlyable := false
                      reasons := analysis.reasons ++
                        [.windTooHigh data.windSpeed cfg.maxWindSpeedKmh] }
    else analysis
  let analysis :=
    if data.visibility < (cfg.minVisibilityKm : ℚ) then
      { analysis with isFlyable := false
                      reasons := analysis.reasons ++
                        [.visibilityTooLow data.visibility cfg.minVisibilityKm] }
    else analysis
  let analysis :=
    if data.precipitation > cfg.maxPrecipitationMm then
      { analysis with isFlyable := false
                      reasons := analysis.reasons ++
                        [.precipitationPresent data.precipitation cfg.maxPrecipitationMm] }
    else analysis
  let analysis :=
    if data.temperature < cfg.minTempC then
      { analysis with isFlyable := false
                      reasons := analysis.reasons ++
                        [.temperatureTooLow data.temperature cfg.minTempC] }
    else analysis
  let analysis :=
    if data.temperature > cfg.maxTempC then
      { analysis with isFlyable := false
                      reasons := analysis.reasons ++
                        [.temperatureTooHigh data.temperature cfg.maxTempC] }
    else analysis
  { analysis with windForecast :=
      if data.windSpeed < 8 then "Very light winds, excellent conditions"
      else if data.windSpeed < 16 then "Light winds, good conditions"
      else if data.windSpeed < 24 then "Moderate winds, manageable"
      else "Strong winds, challenging conditions" }

/-- `models.TFR` (internal/models/tfr.go).  `Radius` is in nautical miles.
Defaults are the Go zero values, as produced by the literal `&models.TFR{}`
in `parseGeoJSONTFRs`. -/
structure TFR where
  id : String := ""
  name : String := ""
  «type» : String := ""
  startTime : GoTime := 0
  endTime : GoTime := 0
  latitude : ℚ := 0
  longitude : ℚ := 0
  radius : ℚ := 0
  altMin : Int := 0
  altMax : Int := 0
  reason : String := ""
deriving DecidableEq

/-- `models.TFRCheck` (internal/models/tfr.go). -/
structure TFRCheck where
  hasActiveTFRs : Bool
  activeTFRs : List TFR
  checkRadius : Int
  checkTime : GoTime
  summary : String
deriving DecidableEq

/-- The two float64 geometry helpers of the GeoJSON-based tfr.go, abstracted
as parameters: `calculateDistance lat1 lon1 lat2 lon2` is the haversine
great-circle distance in statute miles on an Earth of radius 3959 miles, and
`webMercatorToWGS84 mercatorY mercatorX` is the inverse Web-Mercator
(EPSG:3857) projection returning `(lat, lon)` in degrees.  Both are pure
numeric functions built on float64 trigonometry in the source; every
definition below embeds the source's control flow around them exactly. -/
structure GeoMath where
  calculateDistance : ℚ → ℚ → ℚ → ℚ → ℚ
  webMercatorToWGS84 : ℚ → ℚ → ℚ × ℚ

/-- `TFRClient.isWithinSearchArea` (GeoJSON-based tfr.go): a TFR with an
unresolved center (both coordinates exactly zero) never matches; otherwise
the search circle and the TFR circle are tested for overlap, converting the
TFR radius from nautical miles to statute miles by the factor 1.15078. -/
def isWithinSearchArea (g : GeoMath) (cfg : DroneWeatherConfig)
    (homeLat homeLon : ℚ) (tfr : TFR) : Bool :=
  let searchRadiusMiles : ℚ := (cfg.searchRadiusMiles : ℚ)
  if tfr.latitude == 0 && tfr.longitude == 0 then
    false
  else
    let distanceToCenter :=
      g.calculateDistance homeLat homeLon tfr.latitude tfr.longitude
    let tfrRadiusMiles := tfr.radius * (1.15078 : ℚ)
    decide (distanceToCenter ≤ searchRadiusMiles + tfrRadiusMiles)

/-- The `continue` condition of the filtering loop in `TFRClient.CheckTFRs`
(GeoJSON-based tfr.go): skip a TFR if it has not started yet, or if it has a
nonzero end time that is already past. -/
def tfrSkipped (now : GoTime) (tfr : TFR) : Bool :=
  timeAfter tfr.startTime now ||
    (!(timeIsZero tfr.endTime) && timeBefore tfr.endTime now)

/-- The filtering loop of `TFRClient.CheckTFRs` (GeoJSON-based tfr.go):
keep the TFRs that are currently active and within the search area, in input
order. -/
def checkTFRsFilter (g : GeoMath) (cfg : DroneWeatherConfig) (now : GoTime)
    (lat lon : ℚ) (allTFRs : List TFR) : List TFR :=
  allTFRs.filter fun tfr =>
    !(tfrSkipped now tfr) && isWithinSearchArea g cfg lat lon tfr

/-- `TFRClient.buildTFRCheck` (GeoJSON-based tfr.go). -/
def buildTFRCheck (cfg : DroneWeatherConfig) (now : GoTime)
    (activeTFRs : List TFR) : TFRCheck :=
  let check : TFRCheck :=
    { hasActiveTFRs := decide (activeTFRs.length > 0)
      activeTFRs := activeTFRs
      checkRadius := cfg.searchRadiusMiles
      checkTime := now
      summary := "" }
  if activeTFRs.length == 0 then
    let s := "No restrictions found within " ++ toString cfg.searchRadiusMiles ++
      " miles - clear to fly"
    { check with summary := s }
  else
    let s := toString activeTFRs.length ++ " restriction(s) found within " ++
      toString cfg.searchRadiusMiles ++ " miles - check locations before flying"
    { check with summary := s }

/-- `TFRClient.CheckTFRs` (GeoJSON-based tfr.go), given the outcome of
`fetchActiveTFRs` as an `Except`: on a fetch failure it returns an empty
check together with the error (Go's `(t.buildTFRCheck(...), err)` pair,
modelled as `TFRCheck × Option String`); on success it filters and builds
the check. -/
def checkTFRs (g : GeoMath) (cfg : DroneWeatherConfig) (now : GoTime)
    (lat lon : ℚ) (fetchResult : Except String (List TFR)) :
    TFRCheck × Option String :=
  match fetchResult with
  | .error e => (buildTFRCheck cfg now [], some e)
  | .ok allTFRs =>
    (buildTFRCheck cfg now (checkTFRsFilter g cfg now lat lon allTFRs), none)

/-- `models.DroneFlightReport` (internal/models). -/
structure DroneFlightReport where
  date : GoTime
  locationName : String
  weatherAnalysis : WeatherAnalysis
  tfrCheck : TFRCheck
  isFlyable : Bool
  summary : String
deriving DecidableEq

/-- The outcome of one `DroneWeatherAgent.RunOnce` execution after a
successful weather fetch: the TFR check actually used, the overall flyable
decision, and the flight report (present exactly when an email is sent). -/
structure RunOnceOutcome where
  tfrCheck : TFRCheck
  isFlyable : Bool
  report : Option DroneFlightReport
deriving DecidableEq

/-- The decision flow of `DroneWeatherAgent.RunOnce` (agents/drone-weather/
agent.go) after the weather fetch succeeded, given the weather analysis and
the `(tfrCheck, err)` pair returned by `CheckTFRs`: if the TFR check errored,
the returned check is replaced by a default marked `HasActiveTFRs: true`
with the "verify manually" summary; the overall flyable decision is taken
from the weather analysis alone; a report is built (and emailed) exactly
when the weather is flyable. -/
def runOnce (cfg : DroneWeatherConfig) (homeName : String) (now : GoTime)
    (weatherAnalysis : WeatherAnalysis)
    (tfrRes : TFRCheck × Option String) : RunOnceOutcome :=
  let tfrCheck :=
    match tfrRes.2 with
    | some _ =>
      { hasActiveTFRs := true
        activeTFRs := []
        checkRadius := cfg.searchRadiusMiles
        checkTime := now
        summary := "TFR check failed - verify airspace restrictions manually before flying" }
    | none => tfrRes.1
  let isFlyable := weatherAnalysis.isFlyable
  let report :=
    if isFlyable then
      some { date := now
             locationName := homeName
             weatherAnalysis := weatherAnalysis
             tfrCheck := tfrCheck
             isFlyable := true
             summary := "Excellent conditions for drone flying!" }
    else
      none
  { tfrCheck := tfrCheck, isFlyable := isFlyable, report := report }

/-- `chkLeading needle hay`: does `hay` start with `needle`? -/
def chkLeading : List Char → List Char → Bool
  | [], _ => true
  | _ :: _, [] => false
  | a :: as, b :: bs => a == b && chkLeading as bs

/-- `charsContain needle hay`: does `needle` occur as a contiguous run
inside `hay`? -/
def charsContain (needle : List Char) : List Char → Bool
  | [] => chkLeading needle []
  | b :: bs => chkLeading needle (b :: bs) || charsContain needle bs

/-- Substring test on strings (used to state that a summary contains the
word "manually"). -/
def strContainsSub (needle hay : String) : Bool :=
  charsContain needle.data hay.data

/-- The RE2 character class `\s` used by the regexes of tfr.go:
`[\t\n\f\r ]`. -/
def isSpaceRE (c : Char) : Bool :=
  c == ' ' || c == '\t' || c == '\n' || c == '\x0c' || c == '\r'

/-- ASCII white space as trimmed by Go `strings.TrimSpace` (the titles at
hand are ASCII). -/
def isGoSpace (c : Char) : Bool :=
  c == ' ' || c == '\t' || c == '\n' || c == '\x0b' || c == '\x0c' || c == '\r'

/-- Go `strings.TrimSpace` on a character list. -/
def trimSpace (s : List Char) : List Char :=
  ((s.dropWhile isGoSpace).reverse.dropWhile isGoSpace).reverse

/-- Split off the maximal leading run of characters satisfying `p`. -/
def takeRun (p : Char → Bool) (s : List Char) : List Char × List Char :=
  (s.takeWhile p, s.dropWhile p)

/-- Does a lowercase run end in the letters `day`?  (Used to simulate the
regex fragment `[A-Z][a-z]+day` of `datePartRegex`.) -/
def endsWithDay (run : List Char) : Bool :=
  match run.reverse with
  | 'y' :: 'a' :: 'd' :: _ => true
  | _ => false

/-- Consume one expected character. -/
def expectChar (c : Char) : List Char → Option (List Char)
  | x :: rest => if x == c then some rest else none
  | [] => none

/-- Consume an expected literal word. -/
def expectLit (lit : String) (s : List Char) : Option (List Char) :=
  if chkLeading lit.data s then some (s.drop lit.data.length) else none

/-- Regex fragment `[A-Z][a-z]+day` followed (at the call site) by a comma:
with RE2 backtracking the fragment matches exactly when the maximal
lowercase run after the capital ends in `day` and has length at least 4
(`[a-z]+` needs one letter before the literal `day`, and `day` must sit at
the end of the run because the next pattern character is `,`).  Returns the
matched word and the rest. -/
def matchWeekdayWord : List Char → Option (List Char × List Char)
  | c :: rest =>
    if c.isUpper then
      let (run, rest1) := takeRun Char.isLower rest
      if decide (4 ≤ run.length) && endsWithDay run then
        some (c :: run, rest1)
      else none
    else none
  | [] => none

/-- Regex fragment `[A-Z][a-z]+` (a capitalized word, used for the month
name; the following pattern character is `\s`, disjoint from `[a-z]`, so the
maximal run is the match). -/
def matchCapWord : List Char → Option (List Char × List Char)
  | c :: rest =>
    if c.isUpper then
      let (run, rest1) := takeRun Char.isLower rest
      if decide (1 ≤ run.length) then some (c :: run, rest1) else none
    else none
  | [] => none

/-- Regex fragment `\s+` (followed in every use by a non-space pattern
character, so the maximal run is the match). -/
def matchSpaces (s : List Char) : Option (List Char × List Char) :=
  let (run, rest) := takeRun isSpaceRE s
  if decide (1 ≤ run.length) then some (run, rest) else none

/-- Regex fragment `\d{1,2}` followed (at the call site) by `,`: the maximal
digit run must have length 1 or 2, since a longer run leaves a digit where
the comma is required under either quantifier choice. -/
def matchDigits12 (s : List Char) : Option (List Char × List Char) :=
  let (run, rest) := takeRun Char.isDigit s
  if run.length == 1 || run.length == 2 then some (run, rest) else none

/-- Regex fragment `\d{4}`: exactly four leading digits. -/
def matchDigits4 (s : List Char) : Option (List Char × List Char) :=
  match s with
  | a :: b :: c :: d :: rest =>
    if a.isDigit && b.isDigit && c.isDigit && d.isDigit then
      some ([a, b, c, d], rest)
    else none
  | _ => none

/-- One `weekday, Month day, year` phrase of `datePartRegex` in
`parseTFRDatesFromTitle` (tfr.go):
`[A-Z][a-z]+day,\s+[A-Z][a-z]+\s+\d{1,2},\s+\d{4}`.
Returns the matched text and the rest of the input. -/
def matchDatePhrase (s : List Char) : Option (List Char × List Char) := do
  let (wd, s1) ← matchWeekdayWord s
  let s2 ← expectChar ',' s1
  let (sp1, s3) ← matchSpaces s2
  let (mo, s4) ← matchCapWord s3
  let (sp2, s5) ← matchSpaces s4
  let (dy, s6) ← matchDigits12 s5
  let s7 ← expectChar ',' s6
  let (sp3, s8) ← matchSpaces s7
  let (yr, s9) ← matchDigits4 s8
  some (wd ++ [','] ++ sp1 ++ mo ++ sp2 ++ dy ++ [','] ++ sp3 ++ yr, s9)

/-- The whole `datePartRegex` of `parseTFRDatesFromTitle`, anchored at the
current position: one date phrase, optionally (and greedily) followed by
`\s+through\s+` and a second date phrase. -/
def matchDatePattern (s : List Char) : Option (List Char × List Char) := do
  let (d1, s1) ← matchDatePhrase s
  let viaThrough : Option (List Char × List Char) := do
    let (sp1, t1) ← matchSpaces s1
    let t2 ← expectLit "through" t1
    let (sp2, t3) ← matchSpaces t2
    let (d2, t4) ← matchDatePhrase t3
    some (sp1 ++ ("through").data ++ sp2 ++ d2, t4)
  match viaThrough with
  | some (ext, rest) => some (d1 ++ ext, rest)
  | none => some (d1, s1)

/-- `datePartRegex.FindStringSubmatch`: the leftmost match of the date
pattern (group 1 spans the whole match). -/
def findDatePattern : List Char → Option (List Char)
  | [] => none
  | c :: rest =>
    match matchDatePattern (c :: rest) with
    | some (m, _) => some m
    | none => findDatePattern rest

/-- Helper for `splitOnThrough`: scan left to right for the first position
where `\s+through\s+` (followed by at least one character) matches, keeping
the already-scanned text reversed in `acc`. -/
def splitOnThroughAux (acc : List Char) : List Char → Option (List Char × List Char)
  | [] => none
  | c :: rest =>
    let connector : Option (List Char) := do
      let (_, t1) ← matchSpaces (c :: rest)
      let t2 ← expectLit "through" t1
      let (_, t3) ← matchSpaces t2
      if decide (1 ≤ t3.length) then some t3 else none
    match connector with
    | some t3 =>
      if decide (1 ≤ acc.length) then some (acc.reverse, t3)
      else splitOnThroughAux (c :: acc) rest
    | none => splitOnThroughAux (c :: acc) rest

/-- `throughRegex = (.+?)\s+through\s+(.+)` applied by
`parseTFRDatesFromTitle` to the extracted date string: the lazy `(.+?)`
makes the split happen at the leftmost occurrence of the connector with a
nonempty left part, and the final greedy `(.+)` extends to the end of the
string.  Returns the two capture groups. -/
def splitOnThrough (s : List Char) : Option (List Char × List Char) :=
  splitOnThroughAux [] s

/-- Gregorian leap-year test (as in Go's `isLeap`). -/
def isLeapYear (y : Nat) : Bool :=
  (y % 4 == 0 && y % 100 != 0) || y % 400 == 0

/-- Month lengths of a (non-)leap year. -/
def monthLengths (leap : Bool) : List Nat :=
  [31, if leap then 29 else 28, 31, 30, 31, 30, 31, 31, 30, 31, 30, 31]

/-- Days in the months strictly before month `m` (1-based). -/
def daysBeforeMonth (leap : Bool) (m : Nat) : Nat :=
  ((monthLengths leap).take (m - 1)).sum

/-- Number of days in month `m` of year `y` (Go's `daysIn`). -/
def daysIn (y m : Nat) : Nat :=
  (monthLengths (isLeapYear y)).getD (m - 1) 0

/-- Days from 0001-01-01 to the given Gregorian date (year ≥ 1). -/
def daysSinceYear1 (y m d : Nat) : Nat :=
  let py := y - 1
  365 * py + py / 4 - py / 100 + py / 400 + daysBeforeMonth (isLeapYear y) m + (d - 1)

/-- The Go `time.Time` (UTC midnight) of a Gregorian date, on the `GoTime`
scale (seconds since 0001-01-01T00:00:00 UTC). -/
def dateUTC (y m d : Nat) : GoTime :=
  (daysSinceYear1 y m d : Int) * 86400

/-- Case-insensitive ASCII character comparison, as used by Go
`time.Parse` when matching month and weekday names. -/
def ciEq (a b : Char) : Bool := a.toLower == b.toLower

/-- Case-insensitive leading match. -/
def ciLeadMatch : List Char → List Char → Bool
  | [], _ => true
  | _ :: _, [] => false
  | a :: as, b :: bs => ciEq a b && ciLeadMatch as bs

/-- Look up a leading long month/weekday name, in table order, returning its
0-based index and the rest of the input (Go `time.Parse`'s `lookup`). -/
def lookupNameAux (names : List String) (i : Nat) (s : List Char) :
    Option (Nat × List Char) :=
  match names with
  | [] => none
  | n :: rest =>
    if ciLeadMatch n.data s then some (i, s.drop n.data.length)
    else lookupNameAux rest (i + 1) s

/-- Go's `longMonthNames`. -/
def longMonthNames : List String :=
  ["January", "February", "March", "April", "May", "June", "July",
   "August", "September", "October", "November", "December"]

/-- Go's `longDayNames`. -/
def longDayNames : List String :=
  ["Sunday", "Monday", "Tuesday", "Wednesday", "Thursday", "Friday",
   "Saturday"]

/-- Numeric value of a decimal digit character. -/
def digitVal (c : Char) : Nat := c.toNat - 48

/-- Go `time.Parse`'s `getnum` with `fixed = false` (layout element `"2"` or
`"15"`): one digit, or two if the second character is also a digit. -/
def getnum2 : List Char → Option (Nat × List Char)
  | a :: b :: rest =>
    if a.isDigit then
      if b.isDigit then some (digitVal a * 10 + digitVal b, rest)
      else some (digitVal a, b :: rest)
    else none
  | [a] => if a.isDigit then some (digitVal a, []) else none
  | [] => none

/-- Go `time.Parse`'s `getnum` with `fixed = true` (layout elements `"01"`,
`"02"`, `"04"`, `"05"`): exactly two digits. -/
def getnumFixed2 : List Char → Option (Nat × List Char)
  | a :: b :: rest =>
    if a.isDigit && b.isDigit then some (digitVal a * 10 + digitVal b, rest)
    else none
  | _ => none

/-- Layout element `"2006"`: a four-digit year (the sign handling of Go's
`atoi` is omitted, as no format list entry is reachable with a signed
year). -/
def getnum4 : List Char → Option (Nat × List Char)
  | a :: b :: c :: d :: rest =>
    if a.isDigit && b.isDigit && c.isDigit && d.isDigit then
      some (digitVal a * 1000 + digitVal b * 100 + digitVal c * 10 + digitVal d, rest)
    else none
  | _ => none

/-- Final range validation and `time.Date` construction of Go `time.Parse`
for a date-only layout: month in 1..12, day in 1..`daysIn`, resulting in UTC
midnight of that date. -/
def mkDate (y m d : Nat) : Option GoTime :=
  if 1 ≤ m && m ≤ 12 && 1 ≤ d && d ≤ daysIn y m then some (dateUTC y m d)
  else none

/-- `time.Parse "Monday, January 2, 2006"`: long weekday name (matched but
not cross-checked against the date, as in Go), `", "`, long month name,
`" "`, 1–2 digit day, `", "`, 4-digit year; the whole value must be
consumed. -/
def parseFmtWeekday (s : List Char) : Option GoTime := do
  let (_, s1) ← lookupNameAux longDayNames 0 s
  let s2 ← expectChar ',' s1
  let s3 ← expectChar ' ' s2
  let (mi, s4) ← lookupNameAux longMonthNames 0 s3
  let s5 ← expectChar ' ' s4
  let (d, s6) ← getnum2 s5
  let s7 ← expectChar ',' s6
  let s8 ← expectChar ' ' s7
  let (y, s9) ← getnum4 s8
  if s9.isEmpty then mkDate y (mi + 1) d else none

/-- `time.Parse "January 2, 2006"`. -/
def parseFmtMonth (s : List Char) : Option GoTime := do
  let (mi, s1) ← lookupNameAux longMonthNames 0 s
  let s2 ← expectChar ' ' s1
  let (d, s3) ← getnum2 s2
  let s4 ← expectChar ',' s3
  let s5 ← expectChar ' ' s4
  let (y, s6) ← getnum4 s5
  if s6.isEmpty then mkDate y (mi + 1) d else none

/-- `time.Parse "01/02/2006"`. -/
def parseFmtSlash (s : List Char) : Option GoTime := do
  let (m, s1) ← getnumFixed2 s
  let s2 ← expectChar '/' s1
  let (d, s3) ← getnumFixed2 s2
  let s4 ← expectChar '/' s3
  let (y, s5) ← getnum4 s4
  if s5.isEmpty then mkDate y m d else none

/-- `time.Parse "2006-01-02"`. -/
def parseFmtISO (s : List Char) : Option GoTime := do
  let (y, s1) ← getnum4 s
  let s2 ← expectChar '-' s1
  let (m, s3) ← getnumFixed2 s2
  let s4 ← expectChar '-' s3
  let (d, s5) ← getnumFixed2 s4
  if s5.isEmpty then mkDate y m d else none

/-- `time.Parse "2006-01-02T15:04:05Z"` (the `Z` is matched literally as
the UTC marker; numeric zone offsets are not produced by any caller). -/
def parseFmtISOTime (s : List Char) : Option GoTime := do
  let (y, s1) ← getnum4 s
  let s2 ← expectChar '-' s1
  let (m, s3) ← getnumFixed2 s2
  let s4 ← expectChar '-' s3
  let (d, s5) ← getnumFixed2 s4
  let s6 ← expectChar 'T' s5
  let (hh, s7) ← getnum2 s6
  let s8 ← expectChar ':' s7
  let (mm, s9) ← getnumFixed2 s8
  let s10 ← expectChar ':' s9
  let (ss, s11) ← getnumFixed2 s10
  let s12 ← expectChar 'Z' s11
  if s12.isEmpty && hh < 24 && mm < 60 && ss < 60 then
    (mkDate y m d).map (· + (hh * 3600 + mm * 60 + ss : Nat))
  else none

/-- `TFRClient.parseFlexibleDate` (tfr.go): try the five formats in order
and accept the first that parses. -/
def parseFlexibleDate (dateStr : String) : Except String GoTime :=
  match parseFmtWeekday dateStr.data with
  | some t => .ok t
  | none =>
  match parseFmtMonth dateStr.data with
  | some t => .ok t
  | none =>
  match parseFmtSlash dateStr.data with
  | some t => .ok t
  | none =>
  match parseFmtISO dateStr.data with
  | some t => .ok t
  | none =>
  match parseFmtISOTime dateStr.data with
  | some t => .ok t
  | none => .error ("unable to parse date: " ++ dateStr)

/-- `TFRClient.parseTFRDatesFromTitle` (tfr.go): reject an empty title,
extract the leftmost date pattern, then either split on the `through`
connector and parse both halves independently, or parse a single date and
use a one-day window `[date, date + 24h)`. -/
def parseTFRDatesFromTitle (title : String) : Except String (GoTime × GoTime) :=
  if title == "" then .error "empty title string"
  else
    match findDatePattern title.data with
    | none => .error ("no date pattern found in title: " ++ title)
    | some dateChars =>
      match splitOnThrough dateChars with
      | some (g1, g2) =>
        match parseFlexibleDate (String.mk (trimSpace g1)),
              parseFlexibleDate (String.mk (trimSpace g2)) with
        | .ok s, .ok e => .ok (s, e)
        | _, _ => .error "parsing date range"
      | none =>
        match parseFlexibleDate (String.mk (trimSpace dateChars)) with
        | .ok d => .ok (d, d + 24 * 3600)
        | .error e => .error ("parsing single date: " ++ e)

/-- The body of the first loop of `TFRClient.calculatePolygonCenter`
(tfr.go): accumulate `(latSum, lonSum, validPoints)` over vertices with at
least two components, inverse-projecting `(coord[1], coord[0])` as
`(mercatorY, mercatorX)`. -/
def polyStep (g : GeoMath) (acc : ℚ × ℚ × Nat) (coord : List ℚ) : ℚ × ℚ × Nat :=
  match coord with
  | x :: y :: _ =>
    (acc.1 + (g.webMercatorToWGS84 y x).1,
     acc.2.1 + (g.webMercatorToWGS84 y x).2,
     acc.2.2 + 1)
  | _ => acc

/-- The body of the second loop of `TFRClient.calculatePolygonCenter`
(tfr.go): running maximum of the distance from the centroid to each valid
vertex. -/
def polyMaxStep (g : GeoMath) (centerLat centerLon : ℚ) (maxD : ℚ)
    (coord : List ℚ) : ℚ :=
  match coord with
  | x :: y :: _ =>
    let p := g.webMercatorToWGS84 y x
    let distance := g.calculateDistance centerLat centerLon p.1 p.2
    if distance > maxD then distance else maxD
  | _ => maxD

/-- `TFRClient.calculatePolygonCenter` (tfr.go): inverse-project each
vertex, average the latitudes and longitudes arithmetically, then take the
maximum centroid-to-vertex distance as the radius; an empty ring (or a ring
with no valid vertex) yields `(0, 0, 0)`. -/
def calculatePolygonCenter (g : GeoMath) (coordinates : List (List ℚ)) :
    ℚ × ℚ × ℚ :=
  if coordinates.length == 0 then (0, 0, 0)
  else
    let sums := coordinates.foldl (polyStep g) (0, 0, 0)
    let validPoints := sums.2.2
    if validPoints == 0 then (0, 0, 0)
    else
      let centerLat := sums.1 / (validPoints : ℚ)
      let centerLon := sums.2.1 / (validPoints : ℚ)
      let maxDistance := coordinates.foldl (polyMaxStep g centerLat centerLon) 0
      (centerLat, centerLon, maxDistance)

/-- Specification-side reading of the ring: the inverse-projected `(lat,
lon)` of every vertex with at least two components, in ring order.  Used to
compare `calculatePolygonCenter` with the spec's description. -/
def polygonVertices (g : GeoMath) (coordinates : List (List ℚ)) :
    List (ℚ × ℚ) :=
  coordinates.filterMap fun coord =>
    match coord with
    | x :: y :: _ => some (g.webMercatorToWGS84 y x)
    | _ => none

/-- `GeoJSONProperties` (tfr.go). -/
structure GeoJSONProperties where
  notamKey : String := ""
  legalClass : String := ""
  title : String := ""
  state : String := ""
deriving DecidableEq

/-- `GeoJSONGeometry` (tfr.go). -/
structure GeoJSONGeometry where
  «type» : String := ""
  coordinates : List (List (List ℚ)) := []
deriving DecidableEq

/-- `GeoJSONFeature` (tfr.go). -/
structure GeoJSONFeature where
  «type» : String := ""
  properties : GeoJSONProperties := {}
  geometry : GeoJSONGeometry := {}
deriving DecidableEq

/-- The per-feature body of `TFRClient.parseGeoJSONTFRs` (tfr.go): copy the
basic properties; parse the validity dates from the title, falling back for
unparseable titles to the permanent-restriction window `[now − 24h,
now + 365 × 24h]` (the source calls `time.Now()` for both ends; the two
calls are modelled as the single instant `now`); resolve polygon geometry
to a center and radius; drop the record only if the identifier or the type
is empty. -/
def featureToTFR (g : GeoMath) (now : GoTime) (feature : GeoJSONFeature) :
    Option TFR :=
  let tfr0 : TFR :=
    { id := feature.properties.notamKey
      «type» := feature.properties.legalClass
      name := feature.properties.state }
  let tfr1 :=
    match parseTFRDatesFromTitle feature.properties.title with
    | .error _ =>
      { tfr0 with startTime := now - 24 * 3600
                  endTime := now + 365 * 24 * 3600 }
    | .ok (startTime, endTime) =>
      { tfr0 with startTime := startTime, endTime := endTime }
  let tfr2 :=
    if feature.geometry.«type» == "Polygon" &&
        feature.geometry.coordinates.length > 0 then
      match feature.geometry.coordinates with
      | ring :: _ =>
        let c := calculatePolygonCenter g ring
        { tfr1 with latitude := c.1, longitude := c.2.1, radius := c.2.2 }
      | [] => tfr1
    else tfr1
  if tfr2.id != "" && tfr2.«type» != "" then some tfr2 else none

/-- `TFRClient.parseGeoJSONTFRs` (tfr.go) on an already-decoded feature
collection. -/
def parseGeoJSONTFRs (g : GeoMath) (now : GoTime)
    (features : List GeoJSONFeature) : List TFR :=
  features.filterMap (featureToTFR g now)

/-! ### Concrete fixtures

Concrete configurations and inputs used to evaluate the definitions on
closed instances.  `cfgDefault` is the default threshold configuration
installed by `config.go` (25 km/h, 5 km, 0 mm, 4.4 °C, 35 °C) with the
25-mile search radius. -/

/-- The default `DroneWeatherConfig` of config.go. -/
def cfgDefault : DroneWeatherConfig :=
  { maxWindSpeedKmh := 25
    minVisibilityKm := 5
    maxPrecipitationMm := 0
    minTempC := 4.4
    maxTempC := 35
    searchRadiusMiles := 25 }

/-- A concrete geometry instantiation: the taxicab distance (nonnegative and
computable) and the identity "projection". -/
def gW : GeoMath :=
  { calculateDistance := fun lat1 lon1 lat2 lon2 => |lat2 - lat1| + |lon2 - lon1|
    webMercatorToWGS84 := fun y x => (y, x) }

/-- A geometry instantiation whose distance is constantly `q`. -/
def gConst (q : ℚ) : GeoMath :=
  { calculateDistance := fun _ _ _ _ => q
    webMercatorToWGS84 := fun y x => (y, x) }

/-- The observation of the spec's four-violation scenario: wind 36 km/h,
visibility 1 km, precipitation 2 mm, temperature 0 °C. -/
def dataFourViolations : WeatherData :=
  { temperature := 0, windSpeed := 36, visibility := 1, precipitation := 2 }

/-- An observation with no hourly forecast series. -/
def dataNoSeries : WeatherData := { windSpeed := 10 }

/-- An observation whose hourly series reports a dead-calm forecast. -/
def dataCalmSeries : WeatherData :=
  { windSpeed := 10
    hourlyData := some { times := [0, 3600], windSpeeds := [0, 0], windGusts := [0, 0] } }

/-- An observation with a nontrivial hourly series (mean speed 15, mean
gusts 20). -/
def dataWindySeries : WeatherData :=
  { windSpeed := 10
    hourlyData := some { times := [0, 3600], windSpeeds := [10, 20], windGusts := [15, 25] } }

/-- A weather analysis marked flyable. -/
def waGood : WeatherAnalysis :=
  { data := {}, isFlyable := true, reasons := []
    windForecast := "Very light winds, excellent conditions" }

/-- A TFR whose validity window ends exactly at the instant `10`. -/
def tfrEndNow : TFR :=
  { id := "0/0001", «type» := "SECURITY", startTime := 5, endTime := 10
    latitude := 1, longitude := 1 }

/-- A TFR with the zero end time (open-ended window). -/
def tfrOpenEnded : TFR :=
  { id := "0/0003", «type» := "HAZARDS", startTime := 5, endTime := 0
    latitude := 1, longitude := 1 }

/-- A TFR with a resolved center and a 2-nautical-mile radius. -/
def tfrBoundary : TFR :=
  { id := "0/0002", «type» := "VIP", startTime := 5, endTime := 0
    latitude := 1, longitude := 0, radius := 2 }

/-- A GeoJSON feature whose title carries no recognizable date pattern. -/
def fNoDate : GeoJSONFeature :=
  { «type» := "Feature"
    properties := { notamKey := "0/1234", legalClass := "SECURITY"
                    title := "SPACE OPERATIONS AREA", state := "TX" }
    geometry := {} }

/-! ### Helper lemmas -/

lemma foldl_add_eq_sum (xs : List ℚ) : ∀ a : ℚ, xs.foldl (· + ·) a = a + xs.sum := by
  induction xs with
  | nil => intro a; simp
  | cons x xs ih =>
    intro a
    simp only [List.foldl_cons, List.sum_cons, ih]
    ring

lemma hourlyAverages_some (h : HourlyForecast) (hw : h.windSpeeds ≠ []) :
    hourlyAverages (some h) =
      (h.windSpeeds.sum / (h.windSpeeds.length : ℚ),
       if h.windGusts.length > 0 then h.windGusts.sum / (h.windGusts.length : ℚ)
       else 0) := by
  have hlen : h.windSpeeds.length > 0 := List.length_pos.mpr hw
  simp only [hourlyAverages, hlen, if_pos, foldl_add_eq_sum, zero_add]
  split <;> simp

lemma polyStep_foldl (g : GeoMath) (coords : List (List ℚ)) :
    ∀ (a b : ℚ) (n : Nat),
      coords.foldl (polyStep g) (a, b, n) =
        (a + ((polygonVertices g coords).map Prod.fst).sum,
         b + ((polygonVertices g coords).map Prod.snd).sum,
         n + (polygonVertices g coords).length) := by
  induction coords with
  | nil => intro a b n; simp [polygonVertices]
  | cons c cs ih =>
    intro a b n
    rcases c with _ | ⟨x, _ | ⟨y, t⟩⟩
    · simpa [polygonVertices, polyStep, List.filterMap_cons] using ih a b n
    · simpa [polygonVertices, polyStep, List.filterMap_cons] using ih a b n
    · simp only [List.foldl_cons, polyStep, polygonVertices, List.filterMap_cons]
      rw [ih]
      simp only [polygonVertices, List.map_cons, List.sum_cons, List.length_cons,
        Prod.mk.injEq]
      refine ⟨by ring, by ring, by omega⟩

lemma polyMaxStep_foldl (g : GeoMath) (cLat cLon : ℚ) (coords : List (List ℚ)) :
    ∀ m : ℚ,
      m ≤ coords.foldl (polyMaxStep g cLat cLon) m
      ∧ (∀ p ∈ polygonVertices g coords,
          g.calculateDistance cLat cLon p.1 p.2 ≤
            coords.foldl (polyMaxStep g cLat cLon) m)
      ∧ (coords.foldl (polyMaxStep g cLat cLon) m = m
         ∨ ∃ p ∈ polygonVertices g coords,
             coords.foldl (polyMaxStep g cLat cLon) m =
               g.calculateDistance cLat cLon p.1 p.2) := by
  induction coords with
  | nil => intro m; simp [polygonVertices]
  | cons c cs ih =>
    intro m
    rcases c with _ | ⟨x, _ | ⟨y, t⟩⟩
    · simpa [polygonVertices, polyMaxStep, List.filterMap_cons] using ih m
    · simpa [polygonVertices, polyMaxStep, List.filterMap_cons] using ih m
    · set d := g.calculateDistance cLat cLon (g.webMercatorToWGS84 y x).1
        (g.webMercatorToWGS84 y x).2 with hd
      have hstep : polyMaxStep g cLat cLon m (x :: y :: t) =
          if d > m then d else m := by simp [polyMaxStep]
      obtain ⟨ih1, ih2, ih3⟩ := ih (if d > m then d else m)
      have hm : m ≤ (if d > m then d else m) := by split <;> simp_all [le_of_lt]
      have hdle : d ≤ (if d > m then d else m) := by
        split <;> simp_all [le_of_not_lt]
      refine ⟨?_, ?_, ?_⟩
      · simpa [hstep] using le_trans hm ih1
      · intro p hp
        simp only [polygonVertices, List.filterMap_cons, List.mem_cons] at hp
        rcases hp with hp | hp
        · subst hp
          simpa [hstep, hd] using le_trans hdle ih1
        · simpa [hstep] using ih2 p hp
      · have hvcons : polygonVertices g ((x :: y :: t) :: cs) =
            g.webMercatorToWGS84 y x :: polygonVertices g cs := by
          simp [polygonVertices, List.filterMap_cons]
        rw [List.foldl_cons, hstep, hvcons]
        rcases ih3 with h3 | ⟨p, hp, hq⟩
        · by_cases hcmp : d > m
          · right
            refine ⟨g.webMercatorToWGS84 y x, List.mem_cons_self _ _, ?_⟩
            rw [h3, if_pos hcmp, hd]
          · left
            rw [h3, if_neg hcmp]
        · right
          exact ⟨p, List.mem_cons_of_mem _ hp, hq⟩

lemma analyze_reasons_eq (cfg : DroneWeatherConfig) (data : WeatherData) :
    (analyzeWeatherConditions cfg data).reasons =
      (if data.windSpeed > (cfg.maxWindSpeedKmh : ℚ) then
        [WeatherReason.windTooHigh data.windSpeed cfg.maxWindSpeedKmh] else [])
      ++ (if data.visibility < (cfg.minVisibilityKm : ℚ) then
        [WeatherReason.visibilityTooLow data.visibility cfg.minVisibilityKm] else [])
      ++ (if data.precipitation > cfg.maxPrecipitationMm then
        [WeatherReason.precipitationPresent data.precipitation cfg.maxPrecipitationMm] else [])
      ++ (if data.temperature < cfg.minTempC then
        [WeatherReason.temperatureTooLow data.temperature cfg.minTempC] else [])
      ++ (if data.temperature > cfg.maxTempC then
        [WeatherReason.temperatureTooHigh data.temperature cfg.maxTempC] else []) := by
  simp only [analyzeWeatherConditions]
  split_ifs <;> simp

lemma analyze_isFlyable_iff (cfg : DroneWeatherConfig) (data : WeatherData) :
    (analyzeWeatherConditions cfg data).isFlyable = true ↔
      ¬(data.windSpeed > (cfg.maxWindSpeedKmh : ℚ)) ∧
      ¬(data.visibility < (cfg.minVisibilityKm : ℚ)) ∧
      ¬(data.precipitation > cfg.maxPrecipitationMm) ∧
      ¬(data.temperature < cfg.minTempC) ∧
      ¬(data.temperature > cfg.maxTempC) := by
  simp only [analyzeWeatherConditions]
  split_ifs <;> simp_all

lemma analyze_avg_eq (cfg : DroneWeatherConfig) (data : WeatherData) :
    (analyzeWeatherConditions cfg data).avgWindSpeedKmh =
      (hourlyAverages data.hourlyData).1
    ∧ (analyzeWeatherConditions cfg data).avgWindGustsKmh =
      (hourlyAverages data.hourlyData).2 := by
  simp only [analyzeWeatherConditions]
  split_ifs <;> simp

/-! ### Claim theorems -/

/-- Claim C2: for every weather observation and thresholds configuration,
`AnalyzeWeatherConditions` runs all five threshold checks in the fixed order
wind speed, visibility, precipitation, minimum temperature, maximum
temperature, appending exactly one reason per violated check without
short-circuiting; `IsFlyable` is true iff no check is violated; and an input
that simultaneously violates exactly the first four thresholds yields
exactly four reasons with `IsFlyable = false`. -/
theorem analyzeWeather_order_count_flyable (cfg : DroneWeatherConfig)
    (data : WeatherData) :
    ((analyzeWeatherConditions cfg data).reasons =
      (if data.windSpeed > (cfg.maxWindSpeedKmh : ℚ) then
        [WeatherReason.windTooHigh data.windSpeed cfg.maxWindSpeedKmh] else [])
      ++ (if data.visibility < (cfg.minVisibilityKm : ℚ) then
        [WeatherReason.visibilityTooLow data.visibility cfg.minVisibilityKm] else [])
      ++ (if data.precipitation > cfg.maxPrecipitationMm then
        [WeatherReason.precipitationPresent data.precipitation cfg.maxPrecipitationMm] else [])
      ++ (if data.temperature < cfg.minTempC then
        [WeatherReason.temperatureTooLow data.temperature cfg.minTempC] else [])
      ++ (if data.temperature > cfg.maxTempC then
        [WeatherReason.temperatureTooHigh data.temperature cfg.maxTempC] else []))
    ∧ ((analyzeWeatherConditions cfg data).isFlyable = true ↔
      ¬(data.windSpeed > (cfg.maxWindSpeedKmh : ℚ)) ∧
      ¬(data.visibility < (cfg.minVisibilityKm : ℚ)) ∧
      ¬(data.precipitation > cfg.maxPrecipitationMm) ∧
      ¬(data.temperature < cfg.minTempC) ∧
      ¬(data.temperature > cfg.maxTempC))
    ∧ (data.windSpeed > (cfg.maxWindSpeedKmh : ℚ) →
       data.visibility < (cfg.minVisibilityKm : ℚ) →
       data.precipitation > cfg.maxPrecipitationMm →
       data.temperature < cfg.minTempC →
       ¬(data.temperature > cfg.maxTempC) →
       (analyzeWeatherConditions cfg data).reasons.length = 4 ∧
       (analyzeWeatherConditions cfg data).isFlyable = false) := by
  refine ⟨analyze_reasons_eq cfg data, analyze_isFlyable_iff cfg data, ?_⟩
  intro h1 h2 h3 h4 h5
  constructor
  · rw [analyze_reasons_eq cfg data]
    simp [h1, h2, h3, h4, h5]
  · cases hf : (analyzeWeatherConditions cfg data).isFlyable with
    | false => rfl
    | true => exact absurd h1 ((analyze_isFlyable_iff cfg data).mp hf).1

/-- Witness for C2: the spec's four-violation input (wind 36, visibility 1,
precipitation 2, temperature 0) against the default thresholds yields
exactly four reasons and `IsFlyable = false`. -/
theorem analyzeWeather_order_count_flyable_witness :
    (analyzeWeatherConditions cfgDefault dataFourViolations).reasons.length = 4 ∧
    (analyzeWeatherConditions cfgDefault dataFourViolations).isFlyable = false :=
  (analyzeWeather_order_count_flyable cfgDefault dataFourViolations).2.2
    (by norm_num [dataFourViolations, cfgDefault])
    (by norm_num [dataFourViolations, cfgDefault])
    (by norm_num [dataFourViolations, cfgDefault])
    (by norm_num [dataFourViolations, cfgDefault])
    (by norm_num [dataFourViolations, cfgDefault])

/-- Counterexample to claim C6: when no hourly series is present the average
wind fields are not "left empty/unset — not zero": they hold the value `0`
(the Go zero value of the `float64` struct fields), which coincides with the
value produced for an actual dead-calm forecast series, so a caller cannot
distinguish "no data" from "calm". -/
theorem avgWind_absent_is_zero_counterexample :
    dataNoSeries.hourlyData = none
    ∧ (analyzeWeatherConditions cfgDefault dataNoSeries).avgWindSpeedKmh = 0
    ∧ (analyzeWeatherConditions cfgDefault dataNoSeries).avgWindGustsKmh = 0
    ∧ dataCalmSeries.hourlyData ≠ none
    ∧ (analyzeWeatherConditions cfgDefault dataCalmSeries).avgWindSpeedKmh =
        (analyzeWeatherConditions cfgDefault dataNoSeries).avgWindSpeedKmh := by
  obtain ⟨hs1, hg1⟩ := analyze_avg_eq cfgDefault dataNoSeries
  obtain ⟨hs2, hg2⟩ := analyze_avg_eq cfgDefault dataCalmSeries
  refine ⟨rfl, ?_, ?_, by simp [dataCalmSeries], ?_⟩
  · rw [hs1]; norm_num [dataNoSeries, hourlyAverages]
  · rw [hg1]; norm_num [dataNoSeries, hourlyAverages]
  · rw [hs2, hs1]
    norm_num [dataNoSeries, dataCalmSeries, hourlyAverages]

/-- Claim C6 (amended): if the observation carries an hourly series with at
least one wind-speed sample, `AvgWindSpeedKmh` is the arithmetic mean of the
wind speeds (and, when the gust list is nonempty, `AvgWindGustsKmh` the mean
of the gusts); when no series is present both fields keep the zero value
`0` — not an empty/unset marker, so "no data" and "calm" coincide. -/
theorem avgWind_means (cfg : DroneWeatherConfig) (data : WeatherData) :
    (∀ h : HourlyForecast, data.hourlyData = some h → h.windSpeeds ≠ [] →
      (analyzeWeatherConditions cfg data).avgWindSpeedKmh =
        h.windSpeeds.sum / (h.windSpeeds.length : ℚ)
      ∧ (h.windGusts ≠ [] →
        (analyzeWeatherConditions cfg data).avgWindGustsKmh =
          h.windGusts.sum / (h.windGusts.length : ℚ)))
    ∧ (data.hourlyData = none →
      (analyzeWeatherConditions cfg data).avgWindSpeedKmh = 0
      ∧ (analyzeWeatherConditions cfg data).avgWindGustsKmh = 0) := by
  obtain ⟨hs, hg⟩ := analyze_avg_eq cfg data
  constructor
  · intro h hh hw
    rw [hs, hg, hh, hourlyAverages_some h hw]
    refine ⟨rfl, ?_⟩
    intro hgnil
    have hpos : h.windGusts.length > 0 := List.length_pos.mpr hgnil
    simp [hpos]
  · intro hh
    rw [hs, hg, hh]
    exact ⟨rfl, rfl⟩

/-- Witness for the amended C6: a series with speeds `[10, 20]` and gusts
`[15, 25]` yields the means 15 and 20, and an observation with no series
yields the zero values. -/
theorem avgWind_means_witness :
    (analyzeWeatherConditions cfgDefault dataWindySeries).avgWindSpeedKmh = 15
    ∧ (analyzeWeatherConditions cfgDefault dataWindySeries).avgWindGustsKmh = 20
    ∧ (analyzeWeatherConditions cfgDefault dataNoSeries).avgWindSpeedKmh = 0 := by
  obtain ⟨h1, h2⟩ := (avgWind_means cfgDefault dataWindySeries).1
    { times := [0, 3600], windSpeeds := [10, 20], windGusts := [15, 25] }
    rfl (by simp)
  refine ⟨h1.trans (by norm_num), (h2 (by simp)).trans (by norm_num), ?_⟩
  exact ((avgWind_means cfgDefault dataNoSeries).2 rfl).1

/-- Claim C1: when the TFR feed fetch fails entirely, `RunOnce` substitutes
a TFR check explicitly marked `HasActiveTFRs = true` whose summary contains
"manually"; the overall flyable decision is taken from the weather analysis
alone, so with otherwise good weather the run is flyable and a complete
report carrying that degraded TFR check is produced (a fetch failure is
never treated as a clear result). -/
theorem runOnce_tfr_fetch_failure (g : GeoMath) (cfg : DroneWeatherConfig)
    (homeName : String) (now : GoTime) (wa : WeatherAnalysis)
    (lat lon : ℚ) (e : String) :
    (runOnce cfg homeName now wa
        (checkTFRs g cfg now lat lon (.error e))).tfrCheck.hasActiveTFRs = true
    ∧ strContainsSub "manually"
        (runOnce cfg homeName now wa
          (checkTFRs g cfg now lat lon (.error e))).tfrCheck.summary = true
    ∧ (runOnce cfg homeName now wa
        (checkTFRs g cfg now lat lon (.error e))).isFlyable = wa.isFlyable
    ∧ (wa.isFlyable = true →
        ∃ r : DroneFlightReport,
          (runOnce cfg homeName now wa
            (checkTFRs g cfg now lat lon (.error e))).report = some r
          ∧ r.isFlyable = true
          ∧ r.tfrCheck.hasActiveTFRs = true
          ∧ strContainsSub "manually" r.tfrCheck.summary = true) := by
  have hsum : strContainsSub "manually"
      "TFR check failed - verify airspace restrictions manually before flying" = true := by
    decide
  refine ⟨rfl, hsum, rfl, ?_⟩
  intro hfly
  have hrep : (runOnce cfg homeName now wa
      (checkTFRs g cfg now lat lon (.error e))).report =
    some { date := now
           locationName := homeName
           weatherAnalysis := wa
           tfrCheck := { hasActiveTFRs := true
                         activeTFRs := []
                         checkRadius := cfg.searchRadiusMiles
                         checkTime := now
                         summary := "TFR check failed - verify airspace restrictions manually before flying" }
           isFlyable := true
           summary := "Excellent conditions for drone flying!" } := by
    simp [runOnce, checkTFRs, hfly]
  exact ⟨_, hrep, rfl, rfl, hsum⟩

/-- Witness for C1: with flyable weather and a failed TFR fetch, the run is
flyable, the substituted TFR check is marked as having restrictions with a
"manually" summary, and a report is produced. -/
theorem runOnce_tfr_fetch_failure_witness :
    (runOnce cfgDefault "Home" 0 waGood
        (checkTFRs gW cfgDefault 0 0 0 (.error "network timeout"))).isFlyable = true
    ∧ (runOnce cfgDefault "Home" 0 waGood
        (checkTFRs gW cfgDefault 0 0 0 (.error "network timeout"))).tfrCheck.hasActiveTFRs = true
    ∧ strContainsSub "manually"
        (runOnce cfgDefault "Home" 0 waGood
          (checkTFRs gW cfgDefault 0 0 0 (.error "network timeout"))).tfrCheck.summary = true
    ∧ ∃ r : DroneFlightReport,
        (runOnce cfgDefault "Home" 0 waGood
          (checkTFRs gW cfgDefault 0 0 0 (.error "network timeout"))).report = some r
        ∧ r.isFlyable = true := by
  have hwa : waGood.isFlyable = true := by simp [waGood]
  obtain ⟨h1, h2, h3, h4⟩ := runOnce_tfr_fetch_failure gW cfgDefault "Home" 0
    waGood 0 0 "network timeout"
  obtain ⟨r, hr, hrf, -, -⟩ := h4 hwa
  exact ⟨h3.trans hwa, h1, h2, ⟨r, hr, hrf⟩⟩

/-- Counterexample to claim C3: the claimed interval is half-open
`[start, end)`, under which a restriction whose end equals `now` must be
excluded; but `CheckTFRs` keeps a TFR with `endTime = now` (the code skips
only on `end.Before(now)`, a strict comparison), so the restriction with
window `[5, 10]` is in the active set at `now = 10`. -/
theorem checkTFRs_end_at_now_counterexample :
    tfrEndNow.startTime ≤ 10 ∧ tfrEndNow.endTime ≤ 10
    ∧ checkTFRsFilter gW cfgDefault 10 1 1 [tfrEndNow] = [tfrEndNow] := by
  have hskip : tfrSkipped 10 tfrEndNow = false := by
    norm_num [tfrSkipped, tfrEndNow, timeAfter, timeBefore, timeIsZero]
  have hwithin : isWithinSearchArea gW cfgDefault 1 1 tfrEndNow = true := by
    norm_num [isWithinSearchArea, tfrEndNow, gW, cfgDefault, beq_iff_eq]
  refine ⟨by norm_num [tfrEndNow], by norm_num [tfrEndNow], ?_⟩
  simp [checkTFRsFilter, List.filter, hskip, hwithin]

/-- Claim C3 (amended): `CheckTFRs` treats a restriction as currently active
iff `now` lies in the closed interval `[start, end]` (with a zero `end`
meaning open-ended): a TFR is in the active set iff it is in the input, its
start is not after `now`, its end is zero or not strictly before `now`, and
it passes the spatial check.  The claimed half-open `[start, end)` differs
exactly at `now = end`. -/
theorem checkTFRs_active_closed_interval (g : GeoMath) (cfg : DroneWeatherConfig)
    (now : GoTime) (lat lon : ℚ) (ts : List TFR) (tfr : TFR) :
    tfr ∈ checkTFRsFilter g cfg now lat lon ts ↔
      tfr ∈ ts
      ∧ (tfr.startTime ≤ now ∧ (tfr.endTime = 0 ∨ now ≤ tfr.endTime))
      ∧ isWithinSearchArea g cfg lat lon tfr = true := by
  constructor
  · intro h
    obtain ⟨hmem, hcond⟩ := List.mem_filter.mp h
    rw [Bool.and_eq_true, Bool.not_eq_true'] at hcond
    obtain ⟨hskip, hwithin⟩ := hcond
    refine ⟨hmem, ?_, hwithin⟩
    simp [tfrSkipped, timeAfter, timeBefore, timeIsZero] at hskip
    tauto
  · rintro ⟨hmem, hact, hwithin⟩
    refine List.mem_filter.mpr ⟨hmem, ?_⟩
    rw [Bool.and_eq_true, Bool.not_eq_true']
    refine ⟨?_, hwithin⟩
    simp [tfrSkipped, timeAfter, timeBefore, timeIsZero]
    tauto

/-- Claim C10: a TFR whose `EndTime` is the zero time value and whose
`StartTime` is not after `now` is treated by `CheckTFRs` as currently
active: the zero end timestamp is an open-ended validity window, not an
interval that ended in the past. -/
theorem tfr_zero_endTime_open_ended (now : GoTime) (tfr : TFR)
    (hz : tfr.endTime = 0) (hs : tfr.startTime ≤ now) :
    tfrSkipped now tfr = false
    ∧ ∀ (g : GeoMath) (cfg : DroneWeatherConfig) (lat lon : ℚ) (ts : List TFR),
        tfr ∈ ts → isWithinSearchArea g cfg lat lon tfr = true →
        tfr ∈ checkTFRsFilter g cfg now lat lon ts := by
  have hskip : tfrSkipped now tfr = false := by
    simp [tfrSkipped, timeAfter, timeBefore, timeIsZero, hz]
    exact hs
  refine ⟨hskip, ?_⟩
  intro g cfg lat lon ts hmem hwithin
  refine List.mem_filter.mpr ⟨hmem, ?_⟩
  rw [Bool.and_eq_true, Bool.not_eq_true']
  exact ⟨hskip, hwithin⟩

/-- Witness for C10: a TFR with `endTime = 0` and `startTime = 5` is active
at `now = 10` and appears in the filtered set. -/
theorem tfr_zero_endTime_open_ended_witness :
    tfrSkipped 10 tfrOpenEnded = false
    ∧ tfrOpenEnded ∈ checkTFRsFilter gW cfgDefault 10 1 1 [tfrOpenEnded] := by
  have hwithin : isWithinSearchArea gW cfgDefault 1 1 tfrOpenEnded = true := by
    norm_num [isWithinSearchArea, tfrOpenEnded, gW, cfgDefault, beq_iff_eq]
  obtain ⟨h1, h2⟩ := tfr_zero_endTime_open_ended 10 tfrOpenEnded rfl
    (by norm_num [tfrOpenEnded])
  exact ⟨h1, h2 gW cfgDefault 1 1 [tfrOpenEnded] (List.mem_singleton_self _) hwithin⟩

/-- Claim C4: for a restriction with a resolved center, spatial relevance
holds iff the great-circle distance from the query point to the center is
at most `searchRadius + restrictionRadius` (the restriction radius converted
from nautical to statute miles by 1.15078): centers exactly at the sum are
relevant (boundary-inclusive) and centers any `ε > 0` beyond it are not. -/
theorem isWithinSearchArea_overlap (g : GeoMath) (cfg : DroneWeatherConfig)
    (homeLat homeLon : ℚ) (tfr : TFR)
    (hres : ¬(tfr.latitude = 0 ∧ tfr.longitude = 0)) :
    (isWithinSearchArea g cfg homeLat homeLon tfr = true ↔
      g.calculateDistance homeLat homeLon tfr.latitude tfr.longitude ≤
        (cfg.searchRadiusMiles : ℚ) + tfr.radius * 1.15078)
    ∧ (g.calculateDistance homeLat homeLon tfr.latitude tfr.longitude =
        (cfg.searchRadiusMiles : ℚ) + tfr.radius * 1.15078 →
      isWithinSearchArea g cfg homeLat homeLon tfr = true)
    ∧ (∀ ε : ℚ, 0 < ε →
      g.calculateDistance homeLat homeLon tfr.latitude tfr.longitude =
        (cfg.searchRadiusMiles : ℚ) + tfr.radius * 1.15078 + ε →
      isWithinSearchArea g cfg homeLat homeLon tfr = false) := by
  have hbeq : (tfr.latitude == 0 && tfr.longitude == 0) = false := by
    rw [Bool.and_eq_false_iff]
    rcases not_and_or.mp hres with h | h
    · exact Or.inl (beq_eq_false_iff_ne.mpr h)
    · exact Or.inr (beq_eq_false_iff_ne.mpr h)
  have hiff : isWithinSearchArea g cfg homeLat homeLon tfr = true ↔
      g.calculateDistance homeLat homeLon tfr.latitude tfr.longitude ≤
        (cfg.searchRadiusMiles : ℚ) + tfr.radius * 1.15078 := by
    simp [isWithinSearchArea, hbeq]
  refine ⟨hiff, fun heq => hiff.mpr (le_of_eq heq), ?_⟩
  intro ε hε heq
  have hnot : ¬(g.calculateDistance homeLat homeLon tfr.latitude tfr.longitude ≤
      (cfg.searchRadiusMiles : ℚ) + tfr.radius * 1.15078) := by
    rw [heq]
    linarith
  exact Bool.eq_false_iff.mpr fun hcontra => hnot (hiff.mp hcontra)

/-- Witness for C4: with a constant-distance geometry, a center exactly
`25 + 2 × 1.15078` miles away is relevant, and one `1` mile further is
not. -/
theorem isWithinSearchArea_overlap_witness :
    isWithinSearchArea (gConst (25 + 2 * 1.15078)) cfgDefault 0 0 tfrBoundary = true
    ∧ isWithinSearchArea (gConst (25 + 2 * 1.15078 + 1)) cfgDefault 0 0 tfrBoundary = false := by
  have hres : ¬(tfrBoundary.latitude = 0 ∧ tfrBoundary.longitude = 0) := by
    norm_num [tfrBoundary]
  constructor
  · exact (isWithinSearchArea_overlap (gConst (25 + 2 * 1.15078)) cfgDefault
      0 0 tfrBoundary hres).2.1 (by norm_num [gConst, tfrBoundary, cfgDefault])
  · exact (isWithinSearchArea_overlap (gConst (25 + 2 * 1.15078 + 1)) cfgDefault
      0 0 tfrBoundary hres).2.2 1 (by norm_num)
      (by norm_num [gConst, tfrBoundary, cfgDefault])

/-- Claim C5: a restriction whose center is unresolved (latitude and
longitude both exactly zero) is never spatially relevant, for every query
point and search radius, and never appears in the filtered active set. -/
theorem isWithinSearchArea_unresolved_center (g : GeoMath)
    (cfg : DroneWeatherConfig) (homeLat homeLon : ℚ) (now : GoTime)
    (ts : List TFR) (tfr : TFR)
    (hlat : tfr.latitude = 0) (hlon : tfr.longitude = 0) :
    isWithinSearchArea g cfg homeLat homeLon tfr = false
    ∧ tfr ∉ checkTFRsFilter g cfg now homeLat homeLon ts := by
  have hw : isWithinSearchArea g cfg homeLat homeLon tfr = false := by
    simp [isWithinSearchArea, hlat, hlon]
  refine ⟨hw, ?_⟩
  intro hmem
  obtain ⟨-, hcond⟩ := List.mem_filter.mp hmem
  rw [Bool.and_eq_true] at hcond
  rw [hw] at hcond
  exact absurd hcond.2 (by simp)

/-- Witness for C5: the zero-valued TFR (unresolved center) is not relevant
at query point `(3, 4)` and is excluded from the filter even when present
in the input. -/
theorem isWithinSearchArea_unresolved_center_witness :
    isWithinSearchArea gW cfgDefault 3 4 {} = false
    ∧ ({} : TFR) ∉ checkTFRsFilter gW cfgDefault 0 3 4 [{}] :=
  isWithinSearchArea_unresolved_center gW cfgDefault 3 4 0 [{}] {} rfl rfl

/-- Claim C7: for the validity text "Monday, January 13, 2025 through
Friday, December 19, 2025", the parser splits on the `through` connector,
parses each half independently, and yields start = 2025-01-13 and
end = 2025-12-19 (as UTC midnights). -/
theorem parseTFRDatesFromTitle_through_range :
    parseTFRDatesFromTitle
        "Monday, January 13, 2025 through Friday, December 19, 2025" =
      .ok (dateUTC 2025 1 13, dateUTC 2025 12 19)
    ∧ splitOnThrough
        ("Monday, January 13, 2025 through Friday, December 19, 2025").data =
      some (("Monday, January 13, 2025").data, ("Friday, December 19, 2025").data)
    ∧ parseFlexibleDate "Monday, January 13, 2025" = .ok (dateUTC 2025 1 13)
    ∧ parseFlexibleDate "Friday, December 19, 2025" = .ok (dateUTC 2025 12 19) :=
  ⟨rfl, rfl, rfl, rfl⟩

/-- Claim C8: when a feature's validity text has no recognizable date
pattern, the record is not dropped: `parseGeoJSONTFRs` keeps it (provided
its identifier and type are nonempty, the only drop condition) and
synthesizes the window `start = now − 1 day`, `end = now + 1 year`, so the
window starts at most 24 h before `now` and ends at least 300 days after
`now`. -/
theorem featureToTFR_no_date_fallback (g : GeoMath) (now : GoTime)
    (f : GeoJSONFeature) (e : String)
    (hp : parseTFRDatesFromTitle f.properties.title = .error e)
    (hid : f.properties.notamKey ≠ "") (hty : f.properties.legalClass ≠ "") :
    ∃ tfr : TFR, featureToTFR g now f = some tfr
      ∧ tfr ∈ parseGeoJSONTFRs g now [f]
      ∧ tfr.startTime = now - 24 * 3600
      ∧ tfr.endTime = now + 365 * 24 * 3600
      ∧ now - tfr.startTime ≤ 86400
      ∧ 300 * 86400 ≤ tfr.endTime - now := by
  have hid' : (f.properties.notamKey != "") = true := bne_iff_ne.mpr hid
  have hty' : (f.properties.legalClass != "") = true := bne_iff_ne.mpr hty
  suffices hsuf : ∃ tfr : TFR, featureToTFR g now f = some tfr
      ∧ tfr.startTime = now - 24 * 3600
      ∧ tfr.endTime = now + 365 * 24 * 3600 by
    obtain ⟨tfr, hsome, h1, h2⟩ := hsuf
    refine ⟨tfr, hsome, ?_, h1, h2, by rw [h1]; linarith, by rw [h2]; linarith⟩
    simp [parseGeoJSONTFRs, List.filterMap_cons, hsome]
  simp only [featureToTFR, hp]
  split
  · split
    · split
      · exact ⟨_, rfl, rfl, rfl⟩
      · exact ⟨_, rfl, rfl, rfl⟩
    · rename_i hguard
      exfalso
      apply hguard
      split <;> simp [hid', hty']
  · split
    · exact ⟨_, rfl, rfl, rfl⟩
    · rename_i hguard
      exfalso
      apply hguard
      simp [hid', hty']

/-- Witness for C8: the feature titled "SPACE OPERATIONS AREA" (no date
pattern) is kept with the synthesized permanent-restriction window. -/
theorem featureToTFR_no_date_fallback_witness :
    ∃ tfr : TFR, featureToTFR gW 1000000 fNoDate = some tfr
      ∧ tfr ∈ parseGeoJSONTFRs gW 1000000 [fNoDate]
      ∧ tfr.startTime = 1000000 - 24 * 3600
      ∧ tfr.endTime = 1000000 + 365 * 24 * 3600
      ∧ 1000000 - tfr.startTime ≤ 86400
      ∧ 300 * 86400 ≤ tfr.endTime - 1000000 :=
  featureToTFR_no_date_fallback gW 1000000 fNoDate
    "no date pattern found in title: SPACE OPERATIONS AREA" rfl
    (by simp [fNoDate]) (by simp [fNoDate])

/-- Claim C9: `calculatePolygonCenter` inverse-projects each Web-Mercator
vertex, returns the arithmetic-mean centroid of the (valid) vertices — not
an area-weighted centroid — and a radius that bounds every centroid-to-
vertex great-circle distance and is attained at some vertex whenever the
distances are nonnegative; an empty ring yields `(0, 0, 0)`. -/
theorem calculatePolygonCenter_centroid_radius (g : GeoMath)
    (coordinates : List (List ℚ)) :
    (coordinates = [] → calculatePolygonCenter g coordinates = (0, 0, 0))
    ∧ (polygonVertices g coordinates = [] →
        calculatePolygonCenter g coordinates = (0, 0, 0))
    ∧ (polygonVertices g coordinates ≠ [] →
        (calculatePolygonCenter g coordinates).1 =
          ((polygonVertices g coordinates).map Prod.fst).sum /
            ((polygonVertices g coordinates).length : ℚ)
        ∧ (calculatePolygonCenter g coordinates).2.1 =
          ((polygonVertices g coordinates).map Prod.snd).sum /
            ((polygonVertices g coordinates).length : ℚ)
        ∧ (∀ p ∈ polygonVertices g coordinates,
            g.calculateDistance (calculatePolygonCenter g coordinates).1
              (calculatePolygonCenter g coordinates).2.1 p.1 p.2 ≤
              (calculatePolygonCenter g coordinates).2.2)
        ∧ ((∀ p ∈ polygonVertices g coordinates,
              0 ≤ g.calculateDistance (calculatePolygonCenter g coordinates).1
                (calculatePolygonCenter g coordinates).2.1 p.1 p.2) →
            ∃ p ∈ polygonVertices g coordinates,
              (calculatePolygonCenter g coordinates).2.2 =
                g.calculateDistance (calculatePolygonCenter g coordinates).1
                  (calculatePolygonCenter g coordinates).2.1 p.1 p.2)) := by
  have hsums := polyStep_foldl g coordinates 0 0 0
  refine ⟨?_, ?_, ?_⟩
  · intro h
    subst h
    rfl
  · intro hv
    by_cases hc : coordinates = []
    · subst hc; rfl
    · have hlen : (coordinates.length == 0) = false := by
        simp [List.length_eq_zero, hc]
      unfold calculatePolygonCenter
      rw [hlen, hsums, hv]
      simp
  · intro hv
    have hc : coordinates ≠ [] := by
      intro h
      subst h
      exact hv rfl
    have hlen : (coordinates.length == 0) = false := by
      simp [List.length_eq_zero, hc]
    have hvalid : ((0 + (polygonVertices g coordinates).length : Nat) == 0) = false := by
      simp [List.length_eq_zero, hv]
    have hres : calculatePolygonCenter g coordinates =
        ((((polygonVertices g coordinates).map Prod.fst).sum) /
            ((polygonVertices g coordinates).length : ℚ),
         (((polygonVertices g coordinates).map Prod.snd).sum) /
            ((polygonVertices g coordinates).length : ℚ),
         coordinates.foldl
           (polyMaxStep g
             ((((polygonVertices g coordinates).map Prod.fst).sum) /
               ((polygonVertices g coordinates).length : ℚ))
             ((((polygonVertices g coordinates).map Prod.snd).sum) /
               ((polygonVertices g coordinates).length : ℚ))) 0) := by
      unfold calculatePolygonCenter
      rw [hlen, hsums]
      simp only [hvalid, Nat.zero_add, zero_add]
      norm_num
      intro h
      exact absurd h hv
    obtain ⟨hge, hub, hattain⟩ := polyMaxStep_foldl g
      ((((polygonVertices g coordinates).map Prod.fst).sum) /
        ((polygonVertices g coordinates).length : ℚ))
      ((((polygonVertices g coordinates).map Prod.snd).sum) /
        ((polygonVertices g coordinates).length : ℚ))
      coordinates 0
    rw [hres]
    refine ⟨rfl, rfl, ?_, ?_⟩
    · intro p hp
      exact hub p hp
    · intro hnn
      rcases hattain with h0 | ⟨p, hp, hq⟩
      · obtain ⟨p0, hp0⟩ := List.exists_mem_of_ne_nil _ hv
        refine ⟨p0, hp0, le_antisymm ?_ ?_⟩
        · rw [h0] at hub ⊢
          exact le_antisymm (hub p0 hp0) (hnn p0 hp0) ▸ le_refl _
        · exact hub p0 hp0
      · exact ⟨p, hp, hq⟩

/-- Witness for C9: the two-vertex ring `[[1, 3], [5, 7]]` under the
taxicab geometry has centroid `(5, 3)` and a radius attained at one of its
vertices. -/
theorem calculatePolygonCenter_centroid_radius_witness :
    (calculatePolygonCenter gW [[1, 3], [5, 7]]).1 = 5
    ∧ (calculatePolygonCenter gW [[1, 3], [5, 7]]).2.1 = 3
    ∧ ∃ p ∈ polygonVertices gW [[1, 3], [5, 7]],
        (calculatePolygonCenter gW [[1, 3], [5, 7]]).2.2 =
          gW.calculateDistance (calculatePolygonCenter gW [[1, 3], [5, 7]]).1
            (calculatePolygonCenter gW [[1, 3], [5, 7]]).2.1 p.1 p.2 := by
  obtain ⟨-, -, h⟩ := calculatePolygonCenter_centroid_radius gW [[1, 3], [5, 7]]
  obtain ⟨h1, h2, h3, h4⟩ := h (by simp [polygonVertices, gW, List.filterMap_cons])
  refine ⟨h1.trans ?_, h2.trans ?_, h4 ?_⟩
  · norm_num [polygonVertices, gW, List.filterMap_cons]
  · norm_num [polygonVertices, gW, List.filterMap_cons]
  · intro p hp
    simp only [gW]
    positivity
